import Mathlib

/-!
Verification of the quflow workflow engine against its specification.

This file shallowly embeds the core of the `quflow` Python package:
the status model (`src/quflow/status/status.py`), the storage and channel
layer (`src/quflow/communications/`), the task templates
(`src/quflow/tasks/templates/`), nodes (`src/quflow/workflow/node/`),
the dependency-graph sequencer and executor
(`src/quflow/workflow/dependency_graph/`) and the `Workflow` facade
(`src/quflow/workflow/workflow.py`).  Python's runtime errors
(`queue.Full`, `ValueError`, `AssertionError`, `AttributeError`, ...) are
made explicit with an error type, and fallible operations return `Except`.
-/

namespace Quflow

/-- Python exceptions that the embedded code can raise. -/
inductive PyError where
  /-- `queue.Full`, raised by `Queue.put_nowait` on a full bounded queue. -/
  | full
  /-- `ValueError`, e.g. `ThreadPoolExecutor(max_workers=0)` or `max(())`. -/
  | valueError
  /-- `AssertionError`, raised by a failing `assert` statement. -/
  | assertionError
  /-- `AttributeError`, raised when assigning to a getter-only property. -/
  | attributeError
  /-- `KeyError`, raised on a missing dictionary key. -/
  | keyError
  /-- A generic `Exception(msg)` re-raised with a node's name attached. -/
  | wrappedExc (nodeName : String)
  deriving DecidableEq, Repr

/-! ## Status model — `src/quflow/status/status.py`

The `Status` enumeration, in the declaration order of the Python `StrEnum`
(PENDING, RUNNING, SKIP, FINISHED, REJECT, CRASHED, STOPPED). -/

inductive Status where
  | pending
  | running
  | skip
  | finished
  | reject
  | crashed
  | stopped
  deriving DecidableEq, Repr

/-- The `_SEVERITY` table of `status.py` (lines 15-23): PENDING 0, RUNNING 1,
SKIP 2, FINISHED 3, REJECT 4, STOPPED 5, CRASHED 6. -/
def severity : Status → Nat
  | .pending => 0
  | .running => 1
  | .skip => 2
  | .finished => 3
  | .reject => 4
  | .stopped => 5
  | .crashed => 6

/-- One comparison step of Python's `max(..., key=...)`: the running maximum
is replaced only when a later element's key is strictly greater, so the
first element with the maximal key wins. -/
def maxBySeverity (acc x : Status) : Status :=
  if severity acc < severity x then x else acc

/-- `return_most_harsh_status` (status.py lines 26-27):
`max(statuses, key=lambda x: _SEVERITY.get(x, 1))`.  Python's `max` raises
`ValueError` on an empty iterable, hence the `Except`. -/
def return_most_harsh_status (statuses : List Status) : Except PyError Status :=
  match statuses with
  | [] => .error .valueError
  | h :: t => .ok (t.foldl maxBySeverity h)

/-! ## Storage — `src/quflow/communications/storage/`

`SingleItemStorage` is a `deque(maxlen=1)`: a single optional slot.
`MultiItemStorage` wraps `queue.Queue(maxsize)`; `maxsize <= 0` means
unbounded, and `put_nowait` on a full bounded queue raises `queue.Full`. -/

namespace SingleItemStorage

/-- `SingleItemStorage.write` (single_item.py lines 11-13): a `None` payload
is a no-op; a value is appended to the `maxlen=1` deque, displacing any
previous occupant. -/
def write {V : Type} (s : Option V) (data : Option V) : Option V :=
  match data with
  | none => s
  | some d => some d

/-- `SingleItemStorage.read` (single_item.py lines 15-19): pop the held value
(leaving the slot empty) or return `None` when empty, never raising. -/
def read {V : Type} (s : Option V) : Option V × Option V :=
  (s, none)

end SingleItemStorage

/-- `MultiItemStorage` (multi_item.py): a FIFO queue with a bound.
`maxsize` is the Python `int` passed to `Queue`; `maxsize <= 0` means
unbounded. -/
structure MultiItemStorage (V : Type) where
  maxsize : Int
  queue : List V
  deriving DecidableEq, Repr

namespace MultiItemStorage

/-- `MultiItemStorage.write` (multi_item.py lines 11-13): `None` is a no-op;
otherwise `put_nowait`, which raises `queue.Full` when the queue is bounded
(`0 < maxsize`) and already holds `maxsize` items, and appends at the tail
otherwise. -/
def write {V : Type} (s : MultiItemStorage V) (data : Option V) :
    Except PyError (MultiItemStorage V) :=
  match data with
  | none => .ok s
  | some d =>
    if 0 < s.maxsize ∧ s.maxsize ≤ (s.queue.length : Int) then .error .full
    else .ok { s with queue := s.queue ++ [d] }

/-- `MultiItemStorage.read` (multi_item.py lines 15-19): `get_nowait`, i.e.
pop from the head, returning `None` when empty instead of raising. -/
def read {V : Type} (s : MultiItemStorage V) : Option V × MultiItemStorage V :=
  match s.queue with
  | [] => (none, s)
  | x :: rest => (some x, { s with queue := rest })

/-- Reading `n` times in a row (the loop of
`MultiReadStrategy.generate_read`, read_strategy.py lines 52-55). -/
def readN {V : Type} (n : Nat) (s : MultiItemStorage V) :
    List (Option V) × MultiItemStorage V :=
  match n with
  | 0 => ([], s)
  | n + 1 =>
    let (x, s') := s.read
    let (xs, s'') := readN n s'
    (x :: xs, s'')

end MultiItemStorage

/-! ## Read strategies — `src/quflow/communications/channels/read_strategy.py` -/

/-- The `amount_to_read` computation of `MultiReadStrategy.read`
(read_strategy.py lines 38-41): `len(storage)` when `chunk_size is None`,
else `min(chunk_size, len(storage))` over Python ints. -/
def amountToRead (chunkSize : Option Int) (storageLen : Nat) : Int :=
  match chunkSize with
  | none => storageLen
  | some c => min c (storageLen : Int)

namespace MultiReadStrategy

/-- `MultiReadStrategy.read` (read_strategy.py lines 37-46): read
`amount_to_read` items one by one and filter out `None`s.  `range(n)` of a
negative `n` is empty, hence `Int.toNat`. -/
def read {V : Type} (chunkSize : Option Int) (s : MultiItemStorage V) :
    List V × MultiItemStorage V :=
  let amount := (amountToRead chunkSize s.queue.length).toNat
  let (items, s') := MultiItemStorage.readN amount s
  (items.filterMap id, s')

end MultiReadStrategy

/-! ## Task context — `src/quflow/tasks/base/context.py`

`TaskContext` is a dataclass whose `interrupt` field has the default value
`threading.Event()`.  Python evaluates a dataclass field default once, when
the class statement executes, so every `TaskContext` built without an
explicit `interrupt` aliases that one `Event` object.  Events are modelled
by identifiers into a store of boolean flags, and the class-definition-time
`Event()` is the fixed identifier `taskContextDefaultInterrupt`. -/

abbrev EventId := Nat

/-- The store of all `threading.Event` objects: each identifier maps to the
event's flag. -/
abbrev EventStore := EventId → Bool

/-- `threading.Event.set()` on the event store. -/
def eventSet (st : EventStore) (e : EventId) : EventStore :=
  fun j => if j = e then true else st j

/-- The single `threading.Event()` allocated when the `TaskContext` class
statement executes (context.py line 21) and shared as the field default by
every defaulted construction thereafter. -/
def taskContextDefaultInterrupt : EventId := 0

/-- Channel identifiers: which channel a context's `read_callable` /
`write_callable` is bound to (`none` models the module-level `empty_read` /
`empty_write` no-ops used when a node is unconnected, node.py lines 6-19). -/
abbrev ChanId := Nat

/-- `TaskContext` (context.py lines 17-22).  Field defaults as in the
dataclass: the shared interrupt event and status `RUNNING`. -/
structure TaskContext where
  readCh : Option ChanId := none
  writeCh : Option ChanId := none
  interrupt : EventId := taskContextDefaultInterrupt
  status : Status := .running
  deriving DecidableEq, Repr

/-- `Node.create_context` (node.py lines 63-65): wrap the node's channels
via `io_adapter` and build a `TaskContext`, passing no `interrupt`, so the
context receives the shared default event. -/
def nodeCreateContext (readCh writeCh : Option ChanId) : TaskContext :=
  { readCh := readCh, writeCh := writeCh }

/-! ## Single-slot channel store

The end-to-end pipeline claims run over single-item channels
(`create_single_item_channel`, common.py lines 5-12): storage is a
`SingleItemStorage`, reads and writes are the single-item strategies, which
delegate directly to the storage (read_strategy.py lines 22-25,
write_strategy.py lines 20-23).  The state of all channels is a map from
channel identifier to the optional slot content. -/

abbrev ChanStore (V : Type) := ChanId → Option V

/-- `ctx.write_callable(data)` for a single-item channel: a no-op when the
context is unconnected (`empty_write`), otherwise
`SingleItemStorage.write` on the bound channel. -/
def chanWrite {V : Type} (st : ChanStore V) (c : Option ChanId)
    (data : Option V) : ChanStore V :=
  match c with
  | none => st
  | some i => fun j => if j = i then SingleItemStorage.write (st i) data else st j

/-- `ctx.read_callable()` for a single-item channel: `None` without touching
anything when unconnected (`empty_read`), otherwise `SingleItemStorage.read`
on the bound channel, which empties the slot. -/
def chanRead {V : Type} (st : ChanStore V) (c : Option ChanId) :
    Option V × ChanStore V :=
  match c with
  | none => (none, st)
  | some i => (st i, fun j => if j = i then none else st j)

/-! ## Task templates — `src/quflow/tasks/templates/`

Python functions may return `None`; a task function's value is therefore an
`Option V`.  Both templates end without a `return` statement, so their
`run` returns Python `None`, modelled as `(none : Option Status)`. -/

namespace OutputFuncTask

/-- `OutputFuncTask.run` (output_func_task.py lines 46-48):
`result = self.func(); ctx.write_callable(result)` and fall off the end of
the function, returning `None`. -/
def run {V : Type} (f : Unit → Option V) (ctx : TaskContext)
    (st : ChanStore V) : ChanStore V × Option Status :=
  (chanWrite st ctx.writeCh (f ()), none)

end OutputFuncTask

namespace TransformFuncTask

/-- `TransformFuncTask.run` (transform_func_task.py lines 38-41):
`data = ctx.read_callable(); result = self.func(data);
ctx.write_callable(result)` and fall off the end, returning `None`. -/
def run {V : Type} (g : Option V → Option V) (ctx : TaskContext)
    (st : ChanStore V) : ChanStore V × Option Status :=
  let (d, st') := chanRead st ctx.readCh
  (chanWrite st' ctx.writeCh (g d), none)

end TransformFuncTask

/-! ## Node — `src/quflow/workflow/node/node.py`

`Node.status` (node.py lines 56-58) is a `@property` whose getter returns
the constant `Status.PENDING`; the class defines no setter (the mutable
`self.status` attribute and `set_status` are commented out, lines 48 and
60-61).  Consequently reading `node.status` always yields `PENDING`, and
any assignment `self.status = ...` raises `AttributeError`. -/

namespace Node

/-- The getter of the `Node.status` property: constantly `PENDING`. -/
def statusProperty : Status := .pending

/-- Assigning to `self.status`: the property has no setter, so Python
raises `AttributeError` and the assigned value is discarded. -/
def setStatus (_ : Status) : Except PyError Unit := .error .attributeError

end Node

/-! ## ParallelNode — `src/quflow/workflow/node/parallel_node.py` -/

/-- The observable outcome of one `ParallelNode.run()` call. -/
structure ParallelRunResult where
  /-- Whether `self.interrupt.set()` was executed. -/
  interruptSet : Bool
  /-- Whether `self.task.run(ctx)` was ever invoked. -/
  taskRan : Bool
  /-- The value of `node.status` observed after the call (through the
  inherited getter-only property). -/
  statusAfter : Status
  /-- The exception propagating out of `run`, if any. -/
  raised : Option PyError
  deriving DecidableEq, Repr

namespace ParallelNode

/-- The `try` body of `ParallelNode.run` (parallel_node.py lines 30-37).
Its first statement `self.status = Status.RUNNING` assigns through the
inherited getter-only `Node.status` property and raises `AttributeError`,
so everything after it — including `self.task.run(ctx)` — is skipped.
`taskRun` is the outcome the node's task would have when invoked
(an escaping exception or a context status). -/
def runTryBody (taskRun : Except PyError Status) :
    Except PyError (Bool × Status) := do
  let _ ← Node.setStatus .running
  let ctxStatus ← taskRun
  if ctxStatus = .running then
    let _ ← Node.setStatus .finished
    pure (true, Status.finished)
  else
    let _ ← Node.setStatus ctxStatus
    pure (true, ctxStatus)

/-- `ParallelNode.run` (parallel_node.py lines 29-42): the `try` body
followed by the `except Exception` clause, which calls
`self.interrupt.set()`, then attempts `self.status = Status.CRASHED` —
raising `AttributeError` again, which propagates and prevents the intended
`raise Exception(f"Exception @ Node: {name} -- {exc}")` from running. -/
def run (name : String) (taskRun : Except PyError Status) : ParallelRunResult :=
  match runTryBody taskRun with
  | .ok (ranTask, _) =>
    { interruptSet := false, taskRan := ranTask
      statusAfter := Node.statusProperty, raised := none }
  | .error _ =>
    match Node.setStatus .crashed with
    | .ok _ =>
      { interruptSet := true, taskRan := false
        statusAfter := Node.statusProperty, raised := some (.wrappedExc name) }
    | .error e2 =>
      { interruptSet := true, taskRan := false
        statusAfter := Node.statusProperty, raised := some e2 }

end ParallelNode

/-! ## Topological sequencer —
`src/quflow/workflow/dependency_graph/sequencer.py`

The graph is `numNodes` nodes indexed `0..numNodes-1` (rustworkx node
indices) with a directed edge list.  `topological_sequencer` asserts
acyclicity, then repeatedly yields the batch of nodes all of whose
predecessors are done (`rustworkx.TopologicalSorter.get_ready`) and marks
it done — Kahn layering. -/

/-- One `get_ready` batch: the nodes among `remaining` with no incoming
edge from a node still in `remaining`. -/
def readyNodes (edges : List (Nat × Nat)) (remaining : List Nat) : List Nat :=
  remaining.filter (fun v => !(remaining.any (fun u => edges.contains (u, v))))

/-- The `while sorter.is_active()` loop (sequencer.py lines 23-26), with
fuel: each round removes at least one node, so `numNodes` rounds suffice.
The loop also stops when no node is ready (a cycle among the remainder),
matching a sorter that can make no progress. -/
def kahnLayersAux (edges : List (Nat × Nat)) :
    Nat → List Nat → List (List Nat)
  | 0, _ => []
  | fuel + 1, remaining =>
    if remaining.isEmpty then []
    else if (readyNodes edges remaining).isEmpty then []
    else readyNodes edges remaining ::
      kahnLayersAux edges fuel
        (remaining.filter (fun v => !((readyNodes edges remaining).contains v)))

/-- The full Kahn layering of the graph, starting from all node indices. -/
def kahnLayers (numNodes : Nat) (edges : List (Nat × Nat)) : List (List Nat) :=
  kahnLayersAux edges numNodes (List.range numNodes)

/-- `rustworkx.is_directed_acyclic_graph`, modelled by the standard
characterisation: the graph is acyclic iff Kahn layering consumes every
node. -/
def isAcyclic (numNodes : Nat) (edges : List (Nat × Nat)) : Bool :=
  (kahnLayers numNodes edges).flatten.length = numNodes

/-- `topological_sequencer` (sequencer.py lines 7-26): the
`assert rx.is_directed_acyclic_graph(graph)` on line 18 raises
`AssertionError` on a cyclic graph; otherwise the generator yields the
Kahn layers. -/
def topological_sequencer (numNodes : Nat) (edges : List (Nat × Nat)) :
    Except PyError (List (List Nat)) :=
  if isAcyclic numNodes edges then .ok (kahnLayers numNodes edges)
  else .error .assertionError

/-- `split_to_non_parallel_and_parallel` (sequencer.py lines 29-40) followed
by the per-layer order of `DependencyGraph.execute` (dependency_graph.py
lines 94-99): within a layer the plain nodes run first, one by one, then the
`ParallelNode` batch. -/
def splitLayerOrder (isParallelNode : Nat → Bool) (layer : List Nat) :
    List Nat :=
  layer.filter (fun v => !(isParallelNode v)) ++ layer.filter isParallelNode

/-- The per-layer execution order of `DependencyGraph.execute`: the Kahn
layers, each reordered plain-nodes-first; the loop body finishes one
yielded layer entirely before the generator produces the next. -/
def dependencyGraphExecutionLayers (isParallelNode : Nat → Bool)
    (numNodes : Nat) (edges : List (Nat × Nat)) :
    Except PyError (List (List Nat)) :=
  (topological_sequencer numNodes edges).map
    (fun layers => layers.map (splitLayerOrder isParallelNode))

/-! ## Dependency graph construction —
`src/quflow/workflow/dependency_graph/dependency_graph.py` and
`src/quflow/workflow/graph_handler.py` -/

/-- The dependency graph's structure: a rustworkx `PyDiGraph` holding
`numNodes` node payloads (indexed by insertion order) and a directed edge
list. -/
structure DepGraph where
  numNodes : Nat
  edges : List (Nat × Nat)
  deriving DecidableEq, Repr

/-- `DependencyGraph.connect_dependency` (dependency_graph.py lines 45-47)
delegating to `GraphHandler.add_edge_by_nodes` (graph_handler.py lines
70-73): resolve the two node indices (`KeyError` if a node was never
added) and call `PyDiGraph.add_edge`, which appends the edge with no
acyclicity check of any kind. -/
def connect_dependency (g : DepGraph) (a b : Nat) : Except PyError DepGraph :=
  if a < g.numNodes ∧ b < g.numNodes then
    .ok { g with edges := g.edges ++ [(a, b)] }
  else .error .keyError

/-! ## Concurrent batch executor —
`src/quflow/workflow/dependency_graph/nodes_executor.py` -/

/-- The fields of a `ParallelNode` that `execute_multiple_nodes` inspects. -/
structure PNode where
  name : String
  runInMainThread : Bool
  deriving DecidableEq, Repr

/-- The observable outcome of one `execute_multiple_nodes` call: which
nodes had `run` invoked (background pool members first, then the optional
main-thread member), and the exception raised, if any. -/
structure ExecOutcome (α : Type) where
  ran : List α
  raised : Option PyError
  deriving DecidableEq, Repr

/-- `execute_multiple_nodes` (nodes_executor.py lines 7-54): load a fresh
shared interrupt, split the batch into main-thread and background nodes,
`assert len(main_thread_nodes) <= 1` (line 32, `AssertionError` on
failure), construct `ThreadPoolExecutor(max_workers=len(background_nodes))`
— which raises `ValueError` when `max_workers` is `0`, before any node
runs — then submit every background node's `run`, run the main-thread node
if present, and join.  `runFn` is the dynamically dispatched `node.run`. -/
def execute_multiple_nodes {α : Type} (runFn : PNode → α)
    (nodes : List PNode) : ExecOutcome α :=
  let mainThreadNodes := nodes.filter (fun n => n.runInMainThread)
  let backgroundNodes := nodes.filter (fun n => !n.runInMainThread)
  if mainThreadNodes.length > 1 then
    { ran := [], raised := some .assertionError }
  else if backgroundNodes.length = 0 then
    { ran := [], raised := some .valueError }
  else
    { ran := (backgroundNodes ++ mainThreadNodes).map runFn, raised := none }

/-! ## Workflow facade — `src/quflow/workflow/workflow.py`

The end-to-end engine for workflows of plain `Node`s (the pipeline of
claim C1 uses only plain nodes; a `ParallelNode.run` call would raise
`AttributeError`, see `ParallelNode.run` above).  A node holds one task, an
optional inbound and an optional outbound single-item channel
(`Workflow.connect` wires `node_a.write_channel = node_b.read_channel =
channel`, dataflow_graph.py lines 40-48). -/

/-- The task templates a pipeline node can own. -/
inductive TaskKind (V : Type) where
  | output (f : Unit → Option V)
  | transform (g : Option V → Option V)

/-- A plain `Node` as wired into a workflow: its name, its task and its
channel bindings. -/
structure FlowNode (V : Type) where
  name : String
  task : TaskKind V
  readCh : Option ChanId := none
  writeCh : Option ChanId := none

/-- `Node.run` (node.py lines 68-70): build the context from the node's
channels and invoke the task, returning the task's value (`None` for both
templates) alongside the updated channel store. -/
def FlowNode.run {V : Type} (nd : FlowNode V) (st : ChanStore V) :
    ChanStore V × Option Status :=
  let ctx := nodeCreateContext nd.readCh nd.writeCh
  match nd.task with
  | .output f => OutputFuncTask.run f ctx st
  | .transform g => TransformFuncTask.run g ctx st

/-- A `Workflow` of plain nodes: the node list (indexed by insertion order,
which is the shared rustworkx index in both graphs) and the dependency
edges. -/
structure WorkflowModel (V : Type) where
  nodes : List (FlowNode V)
  depEdges : List (Nat × Nat)

/-- `DependencyGraph.execute` (dependency_graph.py lines 94-99) for plain
nodes: `execute_non_parallel_nodes` runs each yielded layer's nodes one by
one (the parallel batch is empty, so `execute_parallel_nodes` returns
immediately), folding the channel store through the flattened layer order. -/
def WorkflowModel.runNodes {V : Type} (w : WorkflowModel V)
    (order : List Nat) (st : ChanStore V) : ChanStore V :=
  order.foldl
    (fun s idx =>
      match w.nodes.get? idx with
      | some nd => (nd.run s).1
      | none => s)
    st

/-- `Workflow.execute` (workflow.py lines 103-113): `validate` raises
`ValueError` on an empty node list; the workflow status is set to
`RUNNING`; `dependency_graph.execute` runs the Kahn layers in order (the
`assert` in `topological_sequencer` raising on a cyclic graph); finally the
status becomes `return_most_harsh_status` of the participating nodes'
`status` attributes — each read through the constant `Node.status`
property. -/
def WorkflowModel.execute {V : Type} (w : WorkflowModel V)
    (st : ChanStore V) : Except PyError (ChanStore V × Status) := do
  if w.nodes.length = 0 then throw .valueError
  let layers ← topological_sequencer w.nodes.length w.depEdges
  let st' := w.runNodes layers.flatten st
  let finalStatus ←
    return_most_harsh_status (w.nodes.map (fun _ => Node.statusProperty))
  pure (st', finalStatus)

/-! ## Properties of the storage layer and the multi-read strategy -/

lemma readN_eq {V : Type} (n : Nat) (s : MultiItemStorage V)
    (hn : n ≤ s.queue.length) :
    MultiItemStorage.readN n s =
      ((s.queue.take n).map some, { s with queue := s.queue.drop n }) := by
  induction n generalizing s with
  | zero => simp [MultiItemStorage.readN]
  | succ n ih =>
    match s, hn with
    | ⟨ms, []⟩, hn => simp at hn
    | ⟨ms, x :: rest⟩, hn =>
      simp only [MultiItemStorage.readN, MultiItemStorage.read]
      rw [ih ⟨ms, rest⟩ (by simpa using hn)]
      simp

lemma multiRead_some_eq {V : Type} (k : Nat) (s : MultiItemStorage V) :
    MultiReadStrategy.read (some (k : Int)) s =
      (s.queue.take (min k s.queue.length),
        { s with queue := s.queue.drop (min k s.queue.length) }) := by
  have hmin : (amountToRead (some (k : Int)) s.queue.length).toNat
      = min k s.queue.length := by
    simp only [amountToRead]
    omega
  unfold MultiReadStrategy.read
  simp only [hmin, readN_eq _ _ (min_le_right k s.queue.length)]
  simp only [← List.map_take, List.filterMap_map]
  simp

lemma multiRead_none_eq {V : Type} (s : MultiItemStorage V) :
    MultiReadStrategy.read none s = (s.queue, { s with queue := [] }) := by
  have hlen : (amountToRead none s.queue.length).toNat = s.queue.length := by
    simp [amountToRead]
  unfold MultiReadStrategy.read
  simp only [hlen, readN_eq _ _ (le_refl s.queue.length)]
  simp

/-- C8: a `MultiReadStrategy` read with `chunk_size = k` returns the next at
most `k` queued items in FIFO order (a prefix of the queue, leaving the
rest), never more than `k` per call and never dropping an item; with
`chunk_size = 2` and items 1..5 queued, successive reads return [1,2],
[3,4], [5], []; with `chunk_size` unset, a read returns all available
items. -/
theorem C8_multi_read_batching {V : Type} (k : Nat) (s : MultiItemStorage V) :
    (MultiReadStrategy.read (some (k : Int)) s).1
        = s.queue.take (min k s.queue.length) ∧
      (MultiReadStrategy.read (some (k : Int)) s).1.length ≤ k ∧
      (MultiReadStrategy.read (some (k : Int)) s).1
          ++ (MultiReadStrategy.read (some (k : Int)) s).2.queue = s.queue ∧
      (MultiReadStrategy.read none s).1 = s.queue ∧
      (MultiReadStrategy.read none s).2.queue = [] ∧
      MultiReadStrategy.read (some 2) (⟨0, [1, 2, 3, 4, 5]⟩ : MultiItemStorage Nat)
        = ([1, 2], ⟨0, [3, 4, 5]⟩) ∧
      MultiReadStrategy.read (some 2) (⟨0, [3, 4, 5]⟩ : MultiItemStorage Nat)
        = ([3, 4], ⟨0, [5]⟩) ∧
      MultiReadStrategy.read (some 2) (⟨0, [5]⟩ : MultiItemStorage Nat)
        = ([5], ⟨0, []⟩) ∧
      MultiReadStrategy.read (some 2) (⟨0, []⟩ : MultiItemStorage Nat)
        = ([], ⟨0, []⟩) := by
  refine ⟨?_, ?_, ?_, ?_, ?_, rfl, rfl, rfl, rfl⟩
  · rw [multiRead_some_eq]
  · rw [multiRead_some_eq]
    simp only [List.length_take]
    omega
  · rw [multiRead_some_eq]
    exact List.take_append_drop _ _
  · rw [multiRead_none_eq]
  · rw [multiRead_none_eq]

/-- C7 counterexample: writing the non-`None` item 20 to a bounded
multi-slot storage of capacity 1 that is currently full does not block
until space is available — `Queue.put_nowait` raises `queue.Full`
immediately, so the claimed blocking write does not exist in the code. -/
theorem C7_full_write_counterexample :
    MultiItemStorage.write (⟨1, [10]⟩ : MultiItemStorage Nat) (some 20)
        = .error .full ∧
      PyError.full ≠ PyError.valueError := by
  exact ⟨rfl, by decide⟩

/-- C7 as amended: a write of a non-`None` item onto a currently full
bounded multi-slot storage raises `queue.Full` immediately (rejecting the
item and leaving the storage unchanged) rather than blocking; a write while
space remains appends the item at the tail, where it is readable in FIFO
order after the items queued before it. -/
theorem C7_full_write_rejects (V : Type) (s : MultiItemStorage V) (d : V) :
    (0 < s.maxsize → s.maxsize ≤ (s.queue.length : Int) →
      MultiItemStorage.write s (some d) = .error .full) ∧
    (¬(0 < s.maxsize ∧ s.maxsize ≤ (s.queue.length : Int)) →
      MultiItemStorage.write s (some d) = .ok { s with queue := s.queue ++ [d] } ∧
      (MultiItemStorage.readN (s.queue.length + 1)
          { s with queue := s.queue ++ [d] }).1
        = (s.queue ++ [d]).map some) := by
  constructor
  · intro h1 h2
    simp only [MultiItemStorage.write]
    rw [if_pos ⟨h1, h2⟩]
  · intro hno
    refine ⟨?_, ?_⟩
    · simp only [MultiItemStorage.write]
      rw [if_neg hno]
    · rw [readN_eq _ _ (by simp)]
      simp

/-- Witness for C7's amended theorem: a capacity-1 storage holding nothing
accepts a write of 5, and one read then returns 5. -/
theorem C7_full_write_witness :
    MultiItemStorage.write (⟨1, []⟩ : MultiItemStorage Nat) (some 5)
        = .ok ⟨1, [5]⟩ ∧
      (MultiItemStorage.readN 1 (⟨1, [5]⟩ : MultiItemStorage Nat)).1
        = [some 5] := by
  have h := (C7_full_write_rejects Nat ⟨1, []⟩ 5).2 (by simp)
  simpa using h

/-! ## Properties of the status aggregation -/

lemma maxBySeverity_cases (a x : Status) :
    maxBySeverity a x = a ∨ maxBySeverity a x = x := by
  unfold maxBySeverity
  split
  · exact Or.inr rfl
  · exact Or.inl rfl

lemma severity_le_maxBySeverity_left (a x : Status) :
    severity a ≤ severity (maxBySeverity a x) := by
  unfold maxBySeverity
  split
  · omega
  · exact le_refl _

lemma severity_le_maxBySeverity_right (a x : Status) :
    severity x ≤ severity (maxBySeverity a x) := by
  unfold maxBySeverity
  split
  · exact le_refl _
  · omega

lemma foldl_maxBySeverity_mem (a : Status) (t : List Status) :
    t.foldl maxBySeverity a ∈ a :: t := by
  induction t generalizing a with
  | nil => simp
  | cons x xs ih =>
    simp only [List.foldl_cons]
    rcases List.mem_cons.mp (ih (maxBySeverity a x)) with h | h
    · rcases maxBySeverity_cases a x with hc | hc
      · rw [h, hc]; exact List.mem_cons_self _ _
      · rw [h, hc]; exact List.mem_cons_of_mem _ (List.mem_cons_self _ _)
    · exact List.mem_cons_of_mem _ (List.mem_cons_of_mem _ h)

lemma foldl_maxBySeverity_ge (a : Status) (t : List Status) :
    ∀ y ∈ a :: t, severity y ≤ severity (t.foldl maxBySeverity a) := by
  induction t generalizing a with
  | nil =>
    intro y hy
    rcases List.mem_cons.mp hy with rfl | hy'
    · exact le_refl _
    · exact absurd hy' (List.not_mem_nil y)
  | cons x xs ih =>
    intro y hy
    simp only [List.foldl_cons]
    rcases List.mem_cons.mp hy with rfl | hy'
    · exact le_trans (severity_le_maxBySeverity_left y x)
        (ih (maxBySeverity y x) _ (List.mem_cons_self _ _))
    · rcases List.mem_cons.mp hy' with rfl | hy''
      · exact le_trans (severity_le_maxBySeverity_right a y)
          (ih (maxBySeverity a y) _ (List.mem_cons_self _ _))
      · exact ih (maxBySeverity a x) y (List.mem_cons_of_mem _ hy'')

/-- C3: for every non-empty collection of statuses,
`return_most_harsh_status` returns an element of maximal severity under the
fixed order PENDING < RUNNING < SKIP < FINISHED < REJECT < STOPPED <
CRASHED; aggregating {FINISHED, SKIP, RUNNING} yields FINISHED and
aggregating {FINISHED, CRASHED} yields CRASHED. -/
theorem C3_most_harsh_is_severity_max (l : List Status) (hl : l ≠ []) :
    ∃ m, return_most_harsh_status l = .ok m ∧ m ∈ l ∧
      (∀ x ∈ l, severity x ≤ severity m) ∧
      (severity .pending < severity .running ∧
        severity .running < severity .skip ∧
        severity .skip < severity .finished ∧
        severity .finished < severity .reject ∧
        severity .reject < severity .stopped ∧
        severity .stopped < severity .crashed) ∧
      return_most_harsh_status [.finished, .skip, .running] = .ok .finished ∧
      return_most_harsh_status [.finished, .crashed] = .ok .crashed := by
  match l, hl with
  | h :: t, _ =>
    exact ⟨t.foldl maxBySeverity h, rfl, foldl_maxBySeverity_mem h t,
      foldl_maxBySeverity_ge h t, by decide, rfl, rfl⟩

/-- Witness for C3 at the concrete collection {FINISHED, CRASHED}. -/
theorem C3_most_harsh_witness :
    ∃ m, return_most_harsh_status [Status.finished, Status.crashed] = .ok m ∧
      m ∈ [Status.finished, Status.crashed] ∧
      (∀ x ∈ [Status.finished, Status.crashed],
        severity x ≤ severity m) ∧
      (severity .pending < severity .running ∧
        severity .running < severity .skip ∧
        severity .skip < severity .finished ∧
        severity .finished < severity .reject ∧
        severity .reject < severity .stopped ∧
        severity .stopped < severity .crashed) ∧
      return_most_harsh_status [.finished, .skip, .running] = .ok .finished ∧
      return_most_harsh_status [.finished, .crashed] = .ok .crashed :=
  C3_most_harsh_is_severity_max [Status.finished, Status.crashed] (by decide)

/-! ## Properties of the task context and the nodes -/

/-- C10: every `TaskContext` constructed without an explicit interrupt —
in particular the context built by every plain `Node.run()` — carries the
single `threading.Event` created once when the dataclass was defined, so
setting the interrupt observed through any one such context makes it
observed as set in all of them. -/
theorem C10_shared_default_interrupt (c1 c2 : TaskContext) (st : EventStore)
    (h1 : c1.interrupt = taskContextDefaultInterrupt)
    (h2 : c2.interrupt = taskContextDefaultInterrupt) :
    c1.interrupt = c2.interrupt ∧
      (∀ r w, (nodeCreateContext r w).interrupt = taskContextDefaultInterrupt) ∧
      eventSet st c1.interrupt c2.interrupt = true ∧
      eventSet st c2.interrupt c1.interrupt = true := by
  refine ⟨h1.trans h2.symm, fun r w => rfl, ?_, ?_⟩ <;>
    simp [eventSet, h1, h2]

/-- Witness for C10: the contexts of two differently wired plain nodes
alias the same interrupt event, and setting it through one is seen through
the other. -/
theorem C10_shared_default_interrupt_witness :
    (nodeCreateContext none none).interrupt
        = (nodeCreateContext (some 0) (some 1)).interrupt ∧
      (∀ r w, (nodeCreateContext r w).interrupt = taskContextDefaultInterrupt) ∧
      eventSet (fun _ => false) (nodeCreateContext none none).interrupt
          (nodeCreateContext (some 0) (some 1)).interrupt = true ∧
      eventSet (fun _ => false) (nodeCreateContext (some 0) (some 1)).interrupt
          (nodeCreateContext none none).interrupt = true :=
  C10_shared_default_interrupt (nodeCreateContext none none)
    (nodeCreateContext (some 0) (some 1)) (fun _ => false) rfl rfl

/-- C4: `ParallelNode.run` does not behave as claimed.  Whatever the task
does — the result does not depend on the task at all — the first statement
`self.status = Status.RUNNING` raises `AttributeError` through the
getter-only `Node.status` property; the except clause sets the node's
interrupt, but `self.status = Status.CRASHED` raises `AttributeError`
again, so the status is never recorded as CRASHED (the property still reads
PENDING), the task never runs, and the propagated exception is the bare
`AttributeError`, not the wrapped exception carrying the node's name. -/
theorem C4_parallel_run_never_records_crash (name : String)
    (taskRun : Except PyError Status) :
    ParallelNode.run name taskRun =
        { interruptSet := true, taskRan := false,
          statusAfter := .pending, raised := some .attributeError } ∧
      (∀ t1 t2 : Except PyError Status,
        ParallelNode.run name t1 = ParallelNode.run name t2) ∧
      some PyError.attributeError ≠ some (PyError.wrappedExc name) ∧
      Status.pending ≠ Status.crashed := by
  exact ⟨rfl, fun t1 t2 => rfl, by simp, by decide⟩

/-- C5: `OutputFuncTask.run` calls the producer and writes its result, and
`TransformFuncTask.run` reads one item, applies the function and writes the
result — but both fall off the end of the function and return Python
`None`, not `FINISHED`, contradicting the repository's own tests
(`test_func_task.py` asserts `status == Status.FINISHED` for both). -/
theorem C5_templates_return_none (V : Type) (f : Unit → Option V)
    (g : Option V → Option V) (ctx : TaskContext) (st : ChanStore V) :
    (OutputFuncTask.run f ctx st).2 = none ∧
      (OutputFuncTask.run f ctx st).1 = chanWrite st ctx.writeCh (f ()) ∧
      (TransformFuncTask.run g ctx st).2 = none ∧
      (TransformFuncTask.run g ctx st).1
        = chanWrite (chanRead st ctx.readCh).2 ctx.writeCh
            (g (chanRead st ctx.readCh).1) ∧
      (none : Option Status) ≠ some Status.finished := by
  exact ⟨rfl, rfl, rfl, rfl, by simp⟩

/-! ## Properties of the batch executor -/

/-- C9 counterexample: a batch of two `ParallelNode`s that are both pinned
to the main thread fails the `assert len(main_thread_nodes) <= 1` with
`AssertionError` — not the claimed `ValueError` — before any node runs. -/
theorem C9_all_pinned_counterexample :
    (∀ n ∈ [PNode.mk "p1" true, PNode.mk "p2" true],
      n.runInMainThread = true) ∧
      execute_multiple_nodes (fun n => n.name)
          [PNode.mk "p1" true, PNode.mk "p2" true]
        = { ran := [], raised := some .assertionError } ∧
      PyError.assertionError ≠ PyError.valueError := by
  exact ⟨by decide, rfl, by decide⟩

/-- C9 as amended: for a batch in which every node is pinned to the main
thread there are no background nodes, and `execute_multiple_nodes` raises
before running any node: with at most one node, the
`ThreadPoolExecutor(max_workers=0)` construction raises `ValueError`
(max_workers equals the number of background nodes, zero); with two or
more, the one-main-thread assertion raises `AssertionError` first. -/
theorem C9_all_pinned_behavior (α : Type) (runFn : PNode → α)
    (nodes : List PNode) (hall : ∀ n ∈ nodes, n.runInMainThread = true) :
    (execute_multiple_nodes runFn nodes).ran = [] ∧
      (nodes.length ≤ 1 →
        execute_multiple_nodes runFn nodes
          = { ran := [], raised := some .valueError }) ∧
      (2 ≤ nodes.length →
        execute_multiple_nodes runFn nodes
          = { ran := [], raised := some .assertionError }) := by
  have hmain : nodes.filter (fun n => n.runInMainThread) = nodes := by
    rw [List.filter_eq_self]
    intro a ha
    simpa using hall a ha
  have hback : nodes.filter (fun n => !n.runInMainThread) = [] := by
    rw [List.filter_eq_nil_iff]
    intro a ha
    simp [hall a ha]
  unfold execute_multiple_nodes
  rw [hmain, hback]
  by_cases hlen : nodes.length > 1
  · rw [if_pos hlen]
    exact ⟨rfl, fun h => absurd hlen (by omega), fun _ => rfl⟩
  · rw [if_neg hlen]
    exact ⟨by simp, fun _ => by simp, fun h => absurd h (by omega)⟩

/-- Witness for C9's amended theorem at a batch of one pinned node. -/
theorem C9_all_pinned_witness :
    (execute_multiple_nodes (fun n => n.name) [PNode.mk "m" true]).ran = [] ∧
      ([PNode.mk "m" true].length ≤ 1 →
        execute_multiple_nodes (fun n => n.name) [PNode.mk "m" true]
          = { ran := [], raised := some .valueError }) ∧
      (2 ≤ [PNode.mk "m" true].length →
        execute_multiple_nodes (fun n => n.name) [PNode.mk "m" true]
          = { ran := [], raised := some .assertionError }) :=
  C9_all_pinned_behavior String (fun n => n.name) [PNode.mk "m" true]
    (by decide)

/-! ## Properties of dependency-graph construction -/

/-- C6 counterexample: on the two-node graph with the edge 0 → 1,
`connect_dependency 1 0` is not rejected — it succeeds and creates the
cycle, so the graph does not remain acyclic after every edge addition; the
cycle is only caught later, by the assertion in `topological_sequencer`. -/
theorem C6_cycle_edge_counterexample :
    connect_dependency ⟨2, [(0, 1)]⟩ 1 0 = .ok ⟨2, [(0, 1), (1, 0)]⟩ ∧
      isAcyclic 2 [(0, 1), (1, 0)] = false ∧
      topological_sequencer 2 [(0, 1), (1, 0)] = .error .assertionError := by
  exact ⟨rfl, by decide, rfl⟩

/-- C6 as amended: `connect_dependency` on two already-added nodes always
succeeds, appending the edge with no acyclicity check even when the edge
creates a cycle; a cyclic graph is rejected only at execution time, when
`topological_sequencer`'s `assert rx.is_directed_acyclic_graph(graph)`
raises `AssertionError`. -/
theorem C6_cycle_detected_at_execute (g : DepGraph) (a b : Nat)
    (ha : a < g.numNodes) (hb : b < g.numNodes) :
    connect_dependency g a b = .ok { g with edges := g.edges ++ [(a, b)] } ∧
      (∀ n es, isAcyclic n es = false →
        topological_sequencer n es = .error .assertionError) := by
  constructor
  · unfold connect_dependency
    rw [if_pos ⟨ha, hb⟩]
  · intro n es h
    simp [topological_sequencer, h]

/-- Witness for C6's amended theorem at the concrete cyclic instance. -/
theorem C6_cycle_detected_witness :
    connect_dependency ⟨2, [(0, 1)]⟩ 1 0 = .ok ⟨2, [(0, 1), (1, 0)]⟩ ∧
      (∀ n es, isAcyclic n es = false →
        topological_sequencer n es = .error .assertionError) :=
  C6_cycle_detected_at_execute ⟨2, [(0, 1)]⟩ 1 0 (by decide) (by decide)

/-! ## Properties of the Kahn layering -/

lemma kahnLayersAux_layer_subset (edges : List (Nat × Nat)) (fuel : Nat) :
    ∀ (rem : List Nat) (i : Nat) (L : List Nat) (x : Nat),
      (kahnLayersAux edges fuel rem).get? i = some L → x ∈ L → x ∈ rem := by
  induction fuel with
  | zero =>
    intro rem i L x hL _
    simp [kahnLayersAux] at hL
  | succ fuel ih =>
    intro rem i L x hL hx
    rw [kahnLayersAux] at hL
    by_cases h1 : rem.isEmpty
    · rw [if_pos h1] at hL
      simp at hL
    · rw [if_neg h1] at hL
      by_cases h2 : (readyNodes edges rem).isEmpty
      · rw [if_pos h2] at hL
        simp at hL
      · rw [if_neg h2] at hL
        cases i with
        | zero =>
          have hLr : readyNodes edges rem = L := by simpa using hL
          rw [← hLr] at hx
          exact List.mem_of_mem_filter hx
        | succ i =>
          have hL' := (by simpa using hL :
            (kahnLayersAux edges fuel
              (rem.filter (fun v => !((readyNodes edges rem).contains v)))).get? i
              = some L)
          exact List.mem_of_mem_filter (ih _ i L x hL' hx)

lemma kahnLayersAux_pred_earlier (edges : List (Nat × Nat)) (fuel : Nat) :
    ∀ (rem : List Nat) (a b : Nat) (j : Nat) (Lb : List Nat),
      (a, b) ∈ edges → a ∈ rem →
      (kahnLayersAux edges fuel rem).get? j = some Lb → b ∈ Lb →
      ∃ i La, i < j ∧ (kahnLayersAux edges fuel rem).get? i = some La ∧
        a ∈ La := by
  induction fuel with
  | zero =>
    intro rem a b j Lb _ _ hL _
    simp [kahnLayersAux] at hL
  | succ fuel ih =>
    intro rem a b j Lb hedge ha hL hb
    rw [kahnLayersAux] at hL ⊢
    by_cases h1 : rem.isEmpty
    · rw [if_pos h1] at hL
      simp at hL
    · rw [if_neg h1] at hL ⊢
      by_cases h2 : (readyNodes edges rem).isEmpty
      · rw [if_pos h2] at hL
        simp at hL
      · rw [if_neg h2] at hL ⊢
        cases j with
        | zero =>
          exfalso
          have hLr : readyNodes edges rem = Lb := by simpa using hL
          rw [← hLr] at hb
          have hmem := List.mem_filter.mp hb
          have hany : rem.any (fun u => edges.contains (u, b)) = true :=
            List.any_eq_true.mpr ⟨a, ha, by simpa using hedge⟩
          rw [hany] at hmem
          simp at hmem
        | succ j =>
          have hL' := (by simpa using hL :
            (kahnLayersAux edges fuel
              (rem.filter (fun v => !((readyNodes edges rem).contains v)))).get? j
              = some Lb)
          by_cases hready : a ∈ readyNodes edges rem
          · exact ⟨0, readyNodes edges rem, Nat.succ_pos j, rfl, hready⟩
          · have ha' : a ∈ rem.filter
                (fun v => !((readyNodes edges rem).contains v)) := by
              rw [List.mem_filter]
              refine ⟨ha, ?_⟩
              simpa using hready
            obtain ⟨i, La, hij, hgi, hma⟩ := ih _ a b j Lb hedge ha' hL' hb
            exact ⟨i + 1, La, Nat.succ_lt_succ hij, by simpa using hgi, hma⟩

lemma kahnLayersAux_not_in_later (edges : List (Nat × Nat)) (fuel : Nat) :
    ∀ (rem : List Nat) (i j : Nat) (L L' : List Nat) (x : Nat), i < j →
      (kahnLayersAux edges fuel rem).get? i = some L →
      (kahnLayersAux edges fuel rem).get? j = some L' →
      x ∈ L → x ∉ L' := by
  induction fuel with
  | zero =>
    intro rem i j L L' x _ hL _ _
    simp [kahnLayersAux] at hL
  | succ fuel ih =>
    intro rem i j L L' x hij hL hL' hx
    rw [kahnLayersAux] at hL hL'
    by_cases h1 : rem.isEmpty
    · rw [if_pos h1] at hL
      simp at hL
    · rw [if_neg h1] at hL hL'
      by_cases h2 : (readyNodes edges rem).isEmpty
      · rw [if_pos h2] at hL
        simp at hL
      · rw [if_neg h2] at hL hL'
        cases i with
        | zero =>
          have hLr : readyNodes edges rem = L := by simpa using hL
          match j, hij with
          | j + 1, _ =>
            have hLj := (by simpa using hL' :
              (kahnLayersAux edges fuel
                (rem.filter
                  (fun v => !((readyNodes edges rem).contains v)))).get? j
                = some L')
            intro hx'
            have hrem' := kahnLayersAux_layer_subset edges fuel _ j L' x hLj hx'
            have hflt := List.mem_filter.mp hrem'
            rw [← hLr] at hx
            have : (readyNodes edges rem).contains x = true := by simpa using hx
            rw [this] at hflt
            simp at hflt
        | succ i =>
          match j, hij with
          | j + 1, hij =>
            have hLi := (by simpa using hL :
              (kahnLayersAux edges fuel
                (rem.filter
                  (fun v => !((readyNodes edges rem).contains v)))).get? i
                = some L)
            have hLj := (by simpa using hL' :
              (kahnLayersAux edges fuel
                (rem.filter
                  (fun v => !((readyNodes edges rem).contains v)))).get? j
                = some L')
            exact ih _ i j L L' x (Nat.lt_of_succ_lt_succ hij) hLi hLj hx

lemma mem_splitLayerOrder (p : Nat → Bool) (L : List Nat) (x : Nat) :
    x ∈ splitLayerOrder p L ↔ x ∈ L := by
  unfold splitLayerOrder
  rw [List.mem_append, List.mem_filter, List.mem_filter]
  by_cases hx : p x <;> simp [hx]

lemma runNodes_append {V : Type} (w : WorkflowModel V) (st : ChanStore V)
    (l1 l2 : List Nat) :
    w.runNodes (l1 ++ l2) st = w.runNodes l2 (w.runNodes l1 st) := by
  unfold WorkflowModel.runNodes
  exact List.foldl_append _ _ l1 l2

/-- C2: for every directed dependency graph, the layering produced by the
Kahn-style sequencer (as reordered and executed by
`DependencyGraph.execute`) places every node in a strictly later layer than
each of its predecessors; and the executor finishes running one layer
entirely before starting the next: running concatenated layers equals
running the first layer to completion and only then the rest. -/
theorem C2_node_after_predecessors (isPar : Nat → Bool) (numNodes : Nat)
    (edges : List (Nat × Nat)) (a b i j : Nat) (La Lb : List Nat)
    (Ls : List (List Nat))
    (hedge : (a, b) ∈ edges) (ha : a < numNodes)
    (hexec : dependencyGraphExecutionLayers isPar numNodes edges = .ok Ls)
    (hgi : Ls.get? i = some La) (hmi : a ∈ La)
    (hgj : Ls.get? j = some Lb) (hmj : b ∈ Lb) :
    i < j ∧
      (∀ (V : Type) (w : WorkflowModel V) (st : ChanStore V)
        (layer rest : List Nat),
        w.runNodes (layer ++ rest) st
          = w.runNodes rest (w.runNodes layer st)) := by
  refine ⟨?_, fun V w st l1 l2 => runNodes_append w st l1 l2⟩
  unfold dependencyGraphExecutionLayers at hexec
  cases hseq : topological_sequencer numNodes edges with
  | error e =>
    rw [hseq] at hexec
    simp [Except.map] at hexec
  | ok layers =>
    rw [hseq] at hexec
    have hLs : Ls = layers.map (splitLayerOrder isPar) := by
      simpa [Except.map] using hexec.symm
    have hlayers : layers = kahnLayers numNodes edges := by
      unfold topological_sequencer at hseq
      by_cases hac : isAcyclic numNodes edges
      · rw [if_pos hac] at hseq
        cases hseq
        rfl
      · rw [if_neg hac] at hseq
        cases hseq
    subst hLs
    subst hlayers
    rw [List.get?_map] at hgi hgj
    obtain ⟨La0, hgi0, hLa0⟩ := Option.map_eq_some'.mp hgi
    obtain ⟨Lb0, hgj0, hLb0⟩ := Option.map_eq_some'.mp hgj
    rw [← hLa0] at hmi
    rw [← hLb0] at hmj
    rw [mem_splitLayerOrder] at hmi hmj
    have hrange : a ∈ List.range numNodes := List.mem_range.mpr ha
    unfold kahnLayers at hgi0 hgj0
    obtain ⟨i0, La1, hi0j, hgi1, hma1⟩ :=
      kahnLayersAux_pred_earlier edges numNodes (List.range numNodes)
        a b j Lb0 hedge hrange hgj0 hmj
    rcases Nat.lt_trichotomy i i0 with hlt | heq | hgt
    · exact absurd hma1
        (kahnLayersAux_not_in_later edges numNodes (List.range numNodes)
          i i0 La0 La1 a hlt hgi0 hgi1 hmi)
    · rw [heq]
      exact hi0j
    · exact absurd hmi
        (kahnLayersAux_not_in_later edges numNodes (List.range numNodes)
          i0 i La1 La0 a hgt hgi1 hgi0 hma1)

/-- Witness for C2 on the two-node chain 0 → 1: node 0 sits in layer 0 and
node 1 in layer 1. -/
theorem C2_node_after_predecessors_witness :
    (0 : Nat) < 1 ∧
      (∀ (V : Type) (w : WorkflowModel V) (st : ChanStore V)
        (layer rest : List Nat),
        w.runNodes (layer ++ rest) st
          = w.runNodes rest (w.runNodes layer st)) :=
  C2_node_after_predecessors (fun _ => false) 2 [(0, 1)] 0 1 0 1 [0] [1]
    [[0], [1]] (by decide) (by decide) rfl rfl (by decide) rfl (by decide)

/-! ## The end-to-end pipeline -/

/-- C1: for every workflow built as node P (an `OutputFuncTask` whose
producer returns 42) connected by a single-slot channel to node C (a
`TransformFuncTask` applying input+1) with its own outbound single-slot
channel, `execute()` completes and C's outbound channel reads back 43 — but
the final `Workflow.status` is PENDING, not the claimed FINISHED: plain
`Node.run` never records a status and the `Node.status` property reads the
constant PENDING, so the severity aggregation over the participating nodes
yields PENDING. -/
theorem C1_pipeline_result_and_status (pname cname : String)
    (f : Unit → Option Int) (g : Option Int → Option Int)
    (hf : f () = some 42) (hg : ∀ x, g (some x) = some (x + 1)) :
    ∃ stF,
      WorkflowModel.execute
          { nodes := [⟨pname, .output f, none, some 0⟩,
                      ⟨cname, .transform g, some 0, some 1⟩],
            depEdges := [(0, 1)] }
          (fun _ => none)
        = .ok (stF, Status.pending) ∧
      stF 1 = some 43 ∧
      (SingleItemStorage.read (stF 1)).1 = some 43 ∧
      Status.pending ≠ Status.finished := by
  have hg42 := hg 42
  have hrun : WorkflowModel.runNodes
      { nodes := [⟨pname, .output f, none, some 0⟩,
                  ⟨cname, .transform g, some 0, some 1⟩],
        depEdges := [(0, 1)] } [0, 1] (fun _ => none)
      = fun j => if j = 1 then some 43 else none := by
    funext j
    simp only [WorkflowModel.runNodes, List.foldl_cons, List.foldl_nil,
      List.get?, FlowNode.run, OutputFuncTask.run, TransformFuncTask.run,
      nodeCreateContext, chanWrite, chanRead, SingleItemStorage.write, hf,
      hg42]
    by_cases hj : j = 1 <;> by_cases hj0 : j = 0 <;> simp [hj, hj0, hg42]
  have hexec : WorkflowModel.execute
      { nodes := [⟨pname, .output f, none, some 0⟩,
                  ⟨cname, .transform g, some 0, some 1⟩],
        depEdges := [(0, 1)] } (fun _ => none)
      = .ok (WorkflowModel.runNodes
          { nodes := [⟨pname, .output f, none, some 0⟩,
                      ⟨cname, .transform g, some 0, some 1⟩],
            depEdges := [(0, 1)] } [0, 1] (fun _ => none),
        Status.pending) := rfl
  refine ⟨fun j => if j = 1 then some 43 else none, ?_, by simp, rfl,
    by decide⟩
  rw [hexec, hrun]

/-- Witness for C1 at the concrete producer and transform functions. -/
theorem C1_pipeline_result_and_status_witness :
    ∃ stF : ChanStore Int,
      WorkflowModel.execute
          ({ nodes := [⟨"P", .output (fun _ => some 42), none, some 0⟩,
                       ⟨"C", .transform
                         (fun d => match d with
                           | some v => some (v + 1)
                           | none => none), some 0, some 1⟩],
             depEdges := [(0, 1)] } : WorkflowModel Int)
          (fun _ => none)
        = .ok (stF, Status.pending) ∧
      stF 1 = some 43 ∧
      (SingleItemStorage.read (stF 1)).1 = some 43 ∧
      Status.pending ≠ Status.finished :=
  C1_pipeline_result_and_status "P" "C" (fun _ => some 42)
    (fun d => match d with
      | some v => some (v + 1)
      | none => none)
    rfl (fun _ => rfl)

end Quflow
